import Mathlib

/-!
Shallow embedding of the acquisition and synchronization engine of
`camera_manager.py` (class `ToupCameraManager`).

Modelling conventions:
- The mutable fields of a `ToupCameraManager` instance become the record
  `CameraState`; each Python method becomes a pure function from a pre-state
  (plus the method's arguments) to a result and a post-state.
- The device (the `toupcam` SDK handle) is an external collaborator.  Its
  behaviour at each interaction point is supplied as an explicit oracle
  argument: `openOk` (does `Toupcam.Open` return a handle), `startOk` (does
  `StartPullModeWithCallback` succeed), `snapOk` (does `Snap` succeed),
  `stillArrives` (does the polling thread pull and deliver the still frame
  before the 10-second wait in `capture_still_image` expires), and the
  dimensions reported for a pulled still frame.  The handle itself is
  modelled by the Bool field `hcam` (a handle is held or not).
- Encoded JPEG byte strings are modelled abstractly by the parameters the
  codec was invoked with: declared width, height and JPEG quality
  (`EncodedFrame`).  Two frames are the same bytes iff these agree.
- The effect that the polling thread (`_poll_frames` together with
  `_try_pull_still_image` and `_save_still_image`) has on the shared state
  while `capture_still_image` blocks on `_still_complete.wait(10.0)` is
  inlined into `capture_still_image`, guarded by the `stillArrives` oracle.
- Python `int` arguments become `Int` (they may be negative); `None` becomes
  `Option.none`.  Raised exceptions become `Except.error` results.
- The floating-point fps estimate is abstracted: the value stored by the
  polling loop is oracle-supplied (`new_fps`), since only its presence, not
  its arithmetic, matters to the claims.
-/

namespace ToupSdk

/-- Resolution entry of the device capability table (`model.res[i]`). -/
structure Resolution where
  width : Nat
  height : Nat
deriving Repr, DecidableEq

/-- Static capability table of a device (`cur.model`): the number of preview
modes, the number of dedicated still modes, and the resolution table both
index into (as in the toupcam SDK, `res` is shared by both). -/
structure DeviceModel where
  preview : Nat
  still : Nat
  res : List Resolution
deriving Repr, DecidableEq

/-- Enumerated device (`EnumV2` entry): its id and its capability table. -/
structure DeviceInfo where
  id : String
  model : DeviceModel
deriving Repr, DecidableEq

/-- Abstraction of an encoded JPEG byte string: the codec inputs that
produced it (declared dimensions and the JPEG quality parameter). -/
structure EncodedFrame where
  width : Nat
  height : Nat
  quality : Nat
deriving Repr, DecidableEq

/-- SDK default white-balance temperature (`toupcam.TOUPCAM_TEMP_DEF`). -/
def TOUPCAM_TEMP_DEF : Nat := 6503

/-- SDK default white-balance tint (`toupcam.TOUPCAM_TINT_DEF`). -/
def TOUPCAM_TINT_DEF : Nat := 1000

/-- Row stride of a DIB scan line: `toupcam.TDIBWIDTHBYTES(bits)`, which
rounds a bit width up to a 4-byte (32-bit) boundary. -/
def TDIBWIDTHBYTES (bits : Nat) : Nat := (bits + 31) / 32 * 4

/-- Mutable state of a `ToupCameraManager` instance (`__init__`).  Thread
handles and lock objects have no state of their own and are omitted; the
events `_frame_available` and `_still_complete` are modelled by Bool
flags. -/
structure CameraState where
  hcam : Bool
  cur : Option DeviceModel
  img_width : Nat
  img_height : Nat
  pData : Option Nat
  res : Nat
  snap_res : Nat
  temp : Nat
  tint : Nat
  frame_count : Nat
  fps : Nat
  capture_count : Nat
  current_frame : Option EncodedFrame
  still_image : Option EncodedFrame
  still_requested : Bool
  still_complete : Bool
  still_filename : Option String
  running : Bool
deriving Repr, DecidableEq

/-- State of a freshly constructed manager (`__init__`). -/
def init_state : CameraState where
  hcam := false
  cur := none
  img_width := 0
  img_height := 0
  pData := none
  res := 0
  snap_res := 0
  temp := TOUPCAM_TEMP_DEF
  tint := TOUPCAM_TINT_DEF
  frame_count := 0
  fps := 0
  capture_count := 0
  current_frame := none
  still_image := none
  still_requested := false
  still_complete := false
  still_filename := none
  running := false

/-- Capability-table lookup `cur.model.res[i]`.  The source indexes the list
without a bounds check; all uses below are guarded (by the source's own
validation or by a theorem hypothesis) so the default is never reached. -/
def resAt (m : DeviceModel) (i : Nat) : Resolution := m.res.getD i ⟨0, 0⟩

/-- Size in bytes of the PixelBuffer allocated for a resolution:
`TDIBWIDTHBYTES(width * 24) * height` (stride-padded row width times
height), exactly as allocated in `open_camera` and `set_resolution`. -/
def bufBytes (r : Resolution) : Nat := TDIBWIDTHBYTES (r.width * 24) * r.height

/-- Pixel count of a resolution, used to compare modes by how much detail
they carry ("lowest-resolution" / "highest-resolution" modes). -/
def area (r : Resolution) : Nat := r.width * r.height

/-- Translation of `ToupCameraManager.close_camera`: stops the loop, joins
the polling thread (bounded), closes the handle if held, and clears the
handle, the capability table, the PixelBuffer, the cached preview frame and
the cached still image.  The method body raises nothing: it is a total
function on states. -/
def close_camera (s : CameraState) : CameraState :=
  { s with running := false, hcam := false, cur := none, pData := none,
           current_frame := none, still_image := none }

/-- Camera selection in `open_camera`: with an explicit id, the first
enumerated device with that id (the Python for/else loop); otherwise the
first enumerated device. -/
def select_camera (arr : List DeviceInfo) (camera_id : Option String) :
    Option DeviceInfo :=
  match camera_id with
  | some cid => arr.find? (fun c => c.id == cid)
  | none => arr.head?

/-- Tail of `open_camera` once a device has been selected: store the
capability table, open the handle (oracle `openOk`), pick the streaming
resolution `preview - 1` (the source's "lowest resolution for speed"),
set `snap_res` to 0 in both the still-capable and still-less branches,
allocate the PixelBuffer, and start the pull session (oracle `startOk`);
on start failure the except-branch calls `close_camera` and returns
failure. -/
def open_selected (s : CameraState) (cam : DeviceInfo) (openOk startOk : Bool) :
    Bool × CameraState :=
  let m := cam.model
  let s1 := { s with cur := some m }
  if openOk then
    let i := m.preview - 1
    let r := resAt m i
    let s2 := { s1 with
                hcam := true, res := i,
                img_width := r.width, img_height := r.height,
                snap_res := 0, pData := some (bufBytes r) }
    if startOk then (true, { s2 with running := true })
    else (false, close_camera s2)
  else (false, s1)

/-- Translation of `ToupCameraManager.open_camera`.  A held handle is first
closed; an empty enumeration, a failed id lookup, a failed `Open`, or a
failed session start all return `false`.  `GigeEnable`, `put_Option` and
`put_eSize` are device calls with no effect on manager state. -/
def open_camera (s : CameraState) (arr : List DeviceInfo)
    (camera_id : Option String) (openOk startOk : Bool) : Bool × CameraState :=
  let s0 := if s.hcam then close_camera s else s
  if arr.isEmpty then (false, s0)
  else
    match select_camera arr camera_id with
    | none => (false, s0)
    | some cam => open_selected s0 cam openOk startOk

/-- Translation of `ToupCameraManager._process_frame`: encode the current
PixelBuffer contents at the streaming dimensions with JPEG quality 35 (the
source's "ULTRA LOW QUALITY" streaming tier) and publish the result as the
current frame, setting the frame-available event. -/
def process_frame_update (s : CameraState) : CameraState :=
  { s with current_frame := some ⟨s.img_width, s.img_height, 35⟩ }

/-- Fps-window bookkeeping of one `_poll_frames` iteration: when at least one
second has elapsed since the last window (oracle `window_elapsed`), store the
new fps estimate (oracle-supplied, abstracting the float division) and add
the frames produced in the window to `frame_count`. -/
def poll_fps_update (s : CameraState) (frames_in_window : Nat)
    (window_elapsed : Bool) (new_fps : Nat) : CameraState :=
  if window_elapsed then
    { s with fps := new_fps, frame_count := s.frame_count + frames_in_window }
  else s

/-- Translation of `ToupCameraManager._try_pull_still_image` together with
`_save_still_image`: if the device has a still frame ready (oracle `ready`
with reported dimensions `d`), pull it, encode it at JPEG quality 95, store
it as the still image, clear the request flag and set the completion
event; otherwise do nothing. -/
def try_pull_still (s : CameraState) (ready : Bool) (d : Resolution) :
    CameraState :=
  if ready then
    { s with still_image := some ⟨d.width, d.height, 95⟩,
             still_requested := false, still_complete := true }
  else s

/-- One iteration of the `_poll_frames` loop body: on a successful frame wait
(oracle `frameOk`) process the frame and do the fps bookkeeping; in either
case, if a still capture is requested, attempt the non-blocking still
pull. -/
def poll_iteration (s : CameraState) (frameOk : Bool) (frames_in_window : Nat)
    (window_elapsed : Bool) (new_fps : Nat) (still_ready : Bool)
    (still_dims : Resolution) : CameraState :=
  let s1 := if frameOk then
      poll_fps_update (process_frame_update s) frames_in_window window_elapsed new_fps
    else s
  if s1.still_requested then try_pull_still s1 still_ready still_dims else s1

/-- Typed failures of the capture path.  `notOpen`, `noFrame`, `snapFailed`
and `captureTimeout` are the `RuntimeError`s actually raised by
`capture_still_image`; `invalidState` is the spec's error kind for a
rejected concurrent request, included so that claims about it can be
stated. -/
inductive CaptureError where
  | notOpen
  | noFrame
  | snapFailed
  | captureTimeout
  | invalidState
deriving Repr, DecidableEq

/-- Outcome of one `capture_still_image` call: the returned filename or the
raised error, the post-state, the file written to disk during the call (path
and encoded contents), and the index passed to the hardware `Snap` trigger
when one was issued. -/
structure CaptureOutcome where
  result : Except CaptureError String
  state : CameraState
  savedFile : Option (String × EncodedFrame)
  snapIndex : Option Nat
deriving Repr

/-- Resolution-index defaulting and validation of `capture_still_image`:
`None` means index 0 (highest), and an out-of-range index (negative or at
least the still count) is replaced by 0 rather than rejected. -/
def clamp_still_index (m : DeviceModel) (resolution_index : Option Int) : Nat :=
  match resolution_index with
  | none => 0
  | some i => if i < 0 ∨ (m.still : Int) ≤ i then 0 else i.toNat

/-- Translation of `ToupCameraManager.capture_still_image` with an explicit
filename (the `None` default only synthesizes a timestamped name).  With no
handle it raises; with zero dedicated still resolutions it writes the cached
preview JPEG bytes to the file and returns (or raises if no frame is
cached); otherwise it defaults / clamps the resolution index to 0, stores
the filename, raises the request flag, clears the completion event and
issues `Snap` (oracle `snapOk`; on device rejection the flag is dropped and
the call raises).  The 10-second wait is the oracle `stillArrives`: when the
polling thread delivers in time (its effect on the shared state is inlined
here, saving the still encoded at quality 95 to the stored filename), the
call bumps `capture_count` and returns the filename; otherwise it drops the
request flag and raises the timeout error. -/
def capture_still_image (s : CameraState) (filename : String)
    (resolution_index : Option Int) (snapOk stillArrives : Bool)
    (stillDims : Resolution) : CaptureOutcome :=
  if s.hcam then
    let m := s.cur.getD ⟨0, 0, []⟩
    if m.still = 0 then
      match s.current_frame with
      | some frame =>
        { result := .ok filename,
          state := { s with capture_count := s.capture_count + 1 },
          savedFile := some (filename, frame), snapIndex := none }
      | none =>
        { result := .error .noFrame, state := s,
          savedFile := none, snapIndex := none }
    else
      let idx : Nat := clamp_still_index m resolution_index
      let s1 := { s with
                  still_filename := some filename,
                  still_requested := true, still_complete := false }
      if snapOk then
        if stillArrives then
          let img : EncodedFrame := ⟨stillDims.width, stillDims.height, 95⟩
          { result := .ok filename,
            state := { s1 with
                       still_image := some img,
                       still_requested := false, still_complete := true,
                       capture_count := s1.capture_count + 1 },
            savedFile := some (filename, img), snapIndex := some idx }
        else
          { result := .error .captureTimeout,
            state := { s1 with still_requested := false },
            savedFile := none, snapIndex := some idx }
      else
        { result := .error .snapFailed,
          state := { s1 with still_requested := false },
          savedFile := none, snapIndex := some idx }
  else
    { result := .error .notOpen, state := s, savedFile := none,
      snapIndex := none }

/-- Translation of `ToupCameraManager.set_resolution`: rejected without a
handle or with an out-of-range index; otherwise stops the loop, restages the
device at the new mode, records the new dimensions, reallocates the
PixelBuffer, and restarts the pull session (oracle `restartOk`); only when
the restart succeeds and the loop was running before is the loop
restarted. -/
def set_resolution (s : CameraState) (index : Int) (restartOk : Bool) :
    Bool × CameraState :=
  if s.hcam then
    let m := s.cur.getD ⟨0, 0, []⟩
    if index < 0 ∨ (m.preview : Int) ≤ index then (false, s)
    else
      let i := index.toNat
      let r := resAt m i
      let s1 := { s with
                  running := false, res := i,
                  img_width := r.width, img_height := r.height,
                  pData := some (bufBytes r) }
      if restartOk then (true, { s1 with running := s.running })
      else (false, s1)
  else (false, s)

/-- Translation of `ToupCameraManager.set_capture_resolution`: rejected with
no capability table; the index is validated against the preview count when
the device has zero dedicated still resolutions and against the still count
otherwise; on success only `snap_res` is stored.  The body performs no
device call and never touches the polling loop. -/
def set_capture_resolution (s : CameraState) (index : Int) :
    Bool × CameraState :=
  match s.cur with
  | none => (false, s)
  | some m =>
    if m.still = 0 then
      if 0 ≤ index ∧ index < (m.preview : Int) then
        (true, { s with snap_res := index.toNat })
      else (false, s)
    else
      if 0 ≤ index ∧ index < (m.still : Int) then
        (true, { s with snap_res := index.toNat })
      else (false, s)

/-- Operations on an existing engine instance, each carrying its arguments
and device-behaviour oracles, used to state whole-engine invariants. -/
inductive EngineOp where
  | openOp (arr : List DeviceInfo) (camera_id : Option String)
      (openOk startOk : Bool)
  | closeOp
  | setRes (index : Int) (restartOk : Bool)
  | setCaptureRes (index : Int)
  | capture (filename : String) (resolution_index : Option Int)
      (snapOk stillArrives : Bool) (stillDims : Resolution)
  | poll (frameOk : Bool) (frames_in_window : Nat) (window_elapsed : Bool)
      (new_fps : Nat) (still_ready : Bool) (still_dims : Resolution)

/-- State transition of one engine operation. -/
def step : EngineOp → CameraState → CameraState
  | .openOp arr cid openOk startOk, s => (open_camera s arr cid openOk startOk).2
  | .closeOp, s => close_camera s
  | .setRes i rok, s => (set_resolution s i rok).2
  | .setCaptureRes i, s => (set_capture_resolution s i).2
  | .capture f ri snapOk arrives d, s =>
      (capture_still_image s f ri snapOk arrives d).state
  | .poll fo fw we nf ready d, s => poll_iteration s fo fw we nf ready d

/-! Concrete fixtures used by witnesses and counterexamples. -/

/-- Capability table of the spec's scenario device: preview modes
[(1920,1080),(640,480)] and zero dedicated still modes. -/
def demoModel : DeviceModel := ⟨2, 0, [⟨1920, 1080⟩, ⟨640, 480⟩]⟩

/-- Enumerated instance of the scenario device. -/
def demoCam : DeviceInfo := ⟨"cam0", demoModel⟩

/-- Capability table of a device with one dedicated 4000x3000 still mode. -/
def stillModel : DeviceModel := ⟨1, 1, [⟨4000, 3000⟩]⟩

/-- Engine state after a successful open of the still-capable device. -/
def openStillState : CameraState :=
  { init_state with
    hcam := true, cur := some stillModel, running := true,
    img_width := 4000, img_height := 3000,
    pData := some (bufBytes ⟨4000, 3000⟩) }

/-- Engine state with a still request outstanding for destination
"a.jpg". -/
def pendingState : CameraState :=
  { openStillState with still_requested := true, still_filename := some "a.jpg" }

/-- Engine state reached by opening the still-less scenario device and
letting the polling loop publish one preview frame. -/
def fallbackOpenState : CameraState :=
  process_frame_update (open_camera init_state [demoCam] none true true).2

/-- Claim C8: closing the engine is idempotent — closing an already-closed or
never-opened engine is a no-op and raises nothing (close_camera is a total
function), and after any close the device handle, cached preview frame, still
image and pixel buffer are all cleared. -/
theorem C8_close_idempotent (s : CameraState) :
    close_camera (close_camera s) = close_camera s ∧
    close_camera init_state = init_state ∧
    (close_camera s).hcam = false ∧
    (close_camera s).current_frame = none ∧
    (close_camera s).still_image = none ∧
    (close_camera s).pData = none :=
  ⟨rfl, rfl, rfl, rfl, rfl, rfl⟩

/-- Claim C4 evidence: on the still-less scenario device with a published
preview frame, capture_still_image issues no hardware snapshot trigger and
succeeds, but the file it writes is the cached preview JPEG itself — encoded
at quality 35, the preview stream tier, not at a higher quality — with the
preview dimensions 640x480. -/
theorem C4_fallback_eval :
    (capture_still_image fallbackOpenState "out.jpg" none true true ⟨0, 0⟩).result
        = Except.ok "out.jpg" ∧
    (capture_still_image fallbackOpenState "out.jpg" none true true ⟨0, 0⟩).snapIndex
        = none ∧
    (capture_still_image fallbackOpenState "out.jpg" none true true ⟨0, 0⟩).savedFile
        = some ("out.jpg", ⟨640, 480, 35⟩) ∧
    fallbackOpenState.current_frame = some ⟨640, 480, 35⟩ ∧
    (capture_still_image fallbackOpenState "out.jpg" none true true ⟨0, 0⟩).state.capture_count
        = fallbackOpenState.capture_count + 1 :=
  ⟨rfl, rfl, rfl, rfl, rfl⟩

/-- Claim C1 counterexample: with a still request already outstanding for
"a.jpg", a second capture_still_image call does not fail with InvalidState —
it returns success for the new filename and overwrites the stored destination
filename. -/
theorem C1_counterexample :
    (capture_still_image pendingState "b.jpg" none true true ⟨4000, 3000⟩).result
        = Except.ok "b.jpg" ∧
    (capture_still_image pendingState "b.jpg" none true true ⟨4000, 3000⟩).state.still_filename
        ≠ some "a.jpg" ∧
    pendingState.still_requested = true ∧
    pendingState.still_filename = some "a.jpg" := by
  refine ⟨rfl, ?_, rfl, rfl⟩
  decide

/-- Claim C1 amended: a second capture_still_image call while a request is
outstanding is not rejected — the code performs no exclusivity check; it
overwrites the stored destination filename with the new call's filename,
re-issues the hardware snapshot trigger, and (when the device delivers) is
itself honoured. -/
theorem C1_amended_no_rejection (s : CameraState) (m : DeviceModel) (f : String)
    (r : Resolution) (hopen : s.hcam = true) (hcur : s.cur = some m)
    (hstill : m.still ≠ 0) (_hreq : s.still_requested = true) :
    (capture_still_image s f none true true r).result = Except.ok f ∧
    (capture_still_image s f none true true r).state.still_filename = some f ∧
    (capture_still_image s f none true true r).snapIndex = some 0 := by
  simp [capture_still_image, clamp_still_index, hopen, hcur, hstill]

/-- Claim C1 amended, witness: the amended behaviour at the concrete pending
state — the second call for "b.jpg" overwrites the stored "a.jpg". -/
theorem C1_amended_no_rejection_witness :
    pendingState.still_requested = true ∧
    (capture_still_image pendingState "b.jpg" none true true ⟨4000, 3000⟩).state.still_filename
        = some "b.jpg" :=
  ⟨rfl, (C1_amended_no_rejection pendingState stillModel "b.jpg" ⟨4000, 3000⟩
      rfl rfl (by decide) rfl).2.1⟩

/-- Claim C2: when the device never delivers the still within the 10-second
wait, capture_still_image raises the capture-timeout error, the
pending-request flag is forced back to the idle value, and a subsequent new
request on the resulting state is accepted (here: succeeds once the device
delivers). -/
theorem C2_timeout_resets_to_idle (s : CameraState) (m : DeviceModel)
    (f g : String) (r : Resolution)
    (hopen : s.hcam = true) (hcur : s.cur = some m) (hstill : m.still ≠ 0) :
    (capture_still_image s f none true false r).result
        = Except.error CaptureError.captureTimeout ∧
    (capture_still_image s f none true false r).state.still_requested = false ∧
    (capture_still_image (capture_still_image s f none true false r).state
        g none true true r).result = Except.ok g := by
  simp [capture_still_image, hopen, hcur, hstill]

/-- Claim C2 witness: the timeout behaviour at the concretely opened
still-capable device. -/
theorem C2_timeout_resets_to_idle_witness :
    (capture_still_image openStillState "t.jpg" none true false ⟨4000, 3000⟩).result
        = Except.error CaptureError.captureTimeout ∧
    (capture_still_image openStillState "t.jpg" none true false ⟨4000, 3000⟩).state.still_requested
        = false ∧
    (capture_still_image
        (capture_still_image openStillState "t.jpg" none true false ⟨4000, 3000⟩).state
        "u.jpg" none true true ⟨4000, 3000⟩).result = Except.ok "u.jpg" :=
  C2_timeout_resets_to_idle openStillState stillModel "t.jpg" "u.jpg"
    ⟨4000, 3000⟩ rfl rfl (by decide)

/-- Claim C10: on a device with at least one dedicated still resolution, an
out-of-range resolution index passed to capture_still_image is not rejected:
the call behaves exactly as with index 0 (the default highest mode), and the
hardware trigger, when issued, is issued with index 0. -/
theorem C10_out_of_range_clamped (s : CameraState) (m : DeviceModel)
    (f : String) (i : Int) (snapOk arrives : Bool) (r : Resolution)
    (hcur : s.cur = some m) (hstill : m.still ≠ 0)
    (hout : i < 0 ∨ (m.still : Int) ≤ i) :
    capture_still_image s f (some i) snapOk arrives r
        = capture_still_image s f (some 0) snapOk arrives r ∧
    capture_still_image s f (some i) snapOk arrives r
        = capture_still_image s f none snapOk arrives r ∧
    (s.hcam = true →
      (capture_still_image s f (some i) true arrives r).snapIndex = some 0) := by
  have h1 : clamp_still_index m (some i) = 0 := by
    simp [clamp_still_index, hout]
  have h2 : clamp_still_index m (some 0) = 0 := by
    simp [clamp_still_index]
  have h3 : clamp_still_index m none = 0 := rfl
  refine ⟨?_, ?_, ?_⟩
  · simp [capture_still_image, hcur, h1, h2]
  · simp [capture_still_image, hcur, h1, h3]
  · intro hopen
    cases arrives <;> simp [capture_still_image, hcur, hopen, hstill, h1]

/-- Claim C10 witness: index -3 on the one-still-mode device behaves as
index 0 and the trigger is issued with index 0. -/
theorem C10_out_of_range_clamped_witness :
    capture_still_image openStillState "w.jpg" (some (-3)) true true ⟨4000, 3000⟩
        = capture_still_image openStillState "w.jpg" (some 0) true true ⟨4000, 3000⟩ ∧
    (capture_still_image openStillState "w.jpg" (some (-3)) true true ⟨4000, 3000⟩).snapIndex
        = some 0 :=
  ⟨(C10_out_of_range_clamped openStillState stillModel "w.jpg" (-3) true true
      ⟨4000, 3000⟩ rfl (by decide) (by decide)).1,
   (C10_out_of_range_clamped openStillState stillModel "w.jpg" (-3) true true
      ⟨4000, 3000⟩ rfl (by decide) (by decide)).2.2 rfl⟩

/-- Counters are untouched by open_selected (in every branch, including the
unwinding close on start failure). -/
theorem open_selected_counts (s : CameraState) (cam : DeviceInfo)
    (a b : Bool) :
    (open_selected s cam a b).2.frame_count = s.frame_count ∧
    (open_selected s cam a b).2.capture_count = s.capture_count := by
  cases a <;> cases b <;> simp [open_selected, close_camera]

/-- Counters are untouched by open_camera in every branch. -/
theorem open_camera_counts (s : CameraState) (arr : List DeviceInfo)
    (cid : Option String) (a b : Bool) :
    (open_camera s arr cid a b).2.frame_count = s.frame_count ∧
    (open_camera s arr cid a b).2.capture_count = s.capture_count := by
  simp only [open_camera]
  cases hs : s.hcam <;> cases he : arr.isEmpty <;>
    cases hsel : select_camera arr cid <;>
    simp only [hs, he, hsel, Bool.false_eq_true, if_true, if_false,
      ite_true, ite_false]
  all_goals
    refine ⟨?_, ?_⟩ <;>
      first
        | exact True.intro
        | rfl
        | exact (open_selected_counts _ _ a b).1
        | exact (open_selected_counts _ _ a b).2

/-- Counters never decrease across a capture_still_image call: frame_count is
untouched and capture_count grows by at most one. -/
theorem capture_counts (s : CameraState) (f : String) (ri : Option Int)
    (a b : Bool) (r : Resolution) :
    (capture_still_image s f ri a b r).state.frame_count = s.frame_count ∧
    s.capture_count ≤ (capture_still_image s f ri a b r).state.capture_count := by
  cases hs : s.hcam <;> simp [capture_still_image, hs]
  split
  · cases hf : s.current_frame <;> simp [hf]
  · cases a <;> cases b <;> simp

/-- Claim C9: frame_count and capture_count are monotonically non-decreasing
across every engine operation — no open, close, resolution change, capture
or polling iteration ever decreases or resets either counter on an existing
engine instance. -/
theorem C9_counters_monotone (op : EngineOp) (s : CameraState) :
    s.frame_count ≤ (step op s).frame_count ∧
    s.capture_count ≤ (step op s).capture_count := by
  cases op with
  | openOp arr cid a b =>
    have h := open_camera_counts s arr cid a b
    exact ⟨h.1.ge, h.2.ge⟩
  | closeOp => exact ⟨Nat.le_refl _, Nat.le_refl _⟩
  | setRes i rok =>
    constructor <;>
      (simp only [step, set_resolution]; split_ifs <;> simp)
  | setCaptureRes i =>
    constructor <;>
      (simp only [step, set_capture_resolution];
       cases s.cur <;> simp <;> split_ifs <;> simp)
  | capture f ri a b r =>
    have h := capture_counts s f ri a b r
    exact ⟨h.1.ge, h.2⟩
  | poll fo fw we nf ready d =>
    constructor <;>
      (simp only [step, poll_iteration, poll_fps_update, process_frame_update,
        try_pull_still];
       split_ifs <;> simp)

/-- Claim C7: set_capture_resolution is a pure metadata update — it takes no
device oracle (no device I/O), succeeds exactly when the index is in range of
the dedicated still count (or of the preview count when that is zero), on
success stores only snap_res, on failure changes nothing, and in all cases
every other engine field (streaming resolution, PixelBuffer, counters,
cached frames, loop flag) is unchanged. -/
theorem C7_pure_metadata (s : CameraState) (m : DeviceModel) (index : Int)
    (hcur : s.cur = some m) :
    ((set_capture_resolution s index).1 = true ↔
      (0 ≤ index ∧ index <
        (if m.still = 0 then (m.preview : Int) else (m.still : Int)))) ∧
    ((set_capture_resolution s index).1 = true →
      (set_capture_resolution s index).2.snap_res = index.toNat) ∧
    ((set_capture_resolution s index).1 = false →
      (set_capture_resolution s index).2 = s) ∧
    (set_capture_resolution s index).2.hcam = s.hcam ∧
    (set_capture_resolution s index).2.cur = s.cur ∧
    (set_capture_resolution s index).2.res = s.res ∧
    (set_capture_resolution s index).2.img_width = s.img_width ∧
    (set_capture_resolution s index).2.img_height = s.img_height ∧
    (set_capture_resolution s index).2.pData = s.pData ∧
    (set_capture_resolution s index).2.frame_count = s.frame_count ∧
    (set_capture_resolution s index).2.capture_count = s.capture_count ∧
    (set_capture_resolution s index).2.fps = s.fps ∧
    (set_capture_resolution s index).2.current_frame = s.current_frame ∧
    (set_capture_resolution s index).2.still_image = s.still_image ∧
    (set_capture_resolution s index).2.still_requested = s.still_requested ∧
    (set_capture_resolution s index).2.still_complete = s.still_complete ∧
    (set_capture_resolution s index).2.still_filename = s.still_filename ∧
    (set_capture_resolution s index).2.running = s.running := by
  simp only [set_capture_resolution, hcur]
  split_ifs with h0 h1 h2 <;> simp_all

/-- Claim C7 witness: index 0 on the opened still-capable device succeeds,
stores snap_res 0 and leaves buffer and loop flag alone. -/
theorem C7_pure_metadata_witness :
    (set_capture_resolution openStillState 0).1 = true ∧
    (set_capture_resolution openStillState 0).2.snap_res = 0 ∧
    (set_capture_resolution openStillState 0).2.pData = openStillState.pData ∧
    (set_capture_resolution openStillState 0).2.running = openStillState.running := by
  have h := C7_pure_metadata openStillState stillModel 0 rfl
  exact ⟨h.1.mpr (by decide), h.2.1 (h.1.mpr (by decide)), rfl, rfl⟩

/-- Claim C5: when the device rejects session start, open_camera reports
failure and fully unwinds — the session handle opened during the attempt is
closed and the engine is left in the closed state (no handle, no capability
table, no buffer, no cached frames, loop not running). -/
theorem C5_start_fail_unwinds (s : CameraState) (cam : DeviceInfo)
    (rest : List DeviceInfo) :
    (open_camera s (cam :: rest) none true false).1 = false ∧
    (open_camera s (cam :: rest) none true false).2.hcam = false ∧
    (open_camera s (cam :: rest) none true false).2.running = false ∧
    (open_camera s (cam :: rest) none true false).2.cur = none ∧
    (open_camera s (cam :: rest) none true false).2.pData = none ∧
    (open_camera s (cam :: rest) none true false).2.current_frame = none ∧
    (open_camera s (cam :: rest) none true false).2.still_image = none := by
  cases hs : s.hcam <;>
    simp [open_camera, open_selected, select_camera, close_camera, hs]

/-- Claim C3: a successful open with a non-empty capability table sorted by
decreasing pixel count selects preview index preview-1 — the lowest-area
preview mode — as the streaming resolution, and snap_res 0 — the
highest-area still mode — as the still-capture resolution. -/
theorem C3_open_defaults (s : CameraState) (cam : DeviceInfo)
    (rest : List DeviceInfo)
    (hp : 1 ≤ cam.model.preview)
    (hlen : cam.model.preview ≤ cam.model.res.length)
    (hslen : cam.model.still ≤ cam.model.res.length)
    (hsorted : ∀ i j, i < j → j < cam.model.res.length →
      area (resAt cam.model j) ≤ area (resAt cam.model i)) :
    (open_camera s (cam :: rest) none true true).1 = true ∧
    (open_camera s (cam :: rest) none true true).2.res
        = cam.model.preview - 1 ∧
    (open_camera s (cam :: rest) none true true).2.img_width
        = (resAt cam.model (cam.model.preview - 1)).width ∧
    (open_camera s (cam :: rest) none true true).2.img_height
        = (resAt cam.model (cam.model.preview - 1)).height ∧
    (∀ i, i < cam.model.preview →
      area (resAt cam.model (cam.model.preview - 1))
        ≤ area (resAt cam.model i)) ∧
    (open_camera s (cam :: rest) none true true).2.snap_res = 0 ∧
    (∀ i, i < cam.model.still →
      area (resAt cam.model i) ≤ area (resAt cam.model 0)) := by
  have hmin : ∀ i, i < cam.model.preview →
      area (resAt cam.model (cam.model.preview - 1))
        ≤ area (resAt cam.model i) := by
    intro i hi
    by_cases h : i = cam.model.preview - 1
    · rw [h]
    · exact hsorted i (cam.model.preview - 1) (by omega) (by omega)
  have hmax : ∀ i, i < cam.model.still →
      area (resAt cam.model i) ≤ area (resAt cam.model 0) := by
    intro i hi
    by_cases h : i = 0
    · rw [h]
    · exact hsorted 0 i (by omega) (by omega)
  refine ⟨?_, ?_, ?_, ?_, hmin, ?_, hmax⟩ <;>
    cases hs : s.hcam <;>
    simp [open_camera, open_selected, select_camera, close_camera, hs]

/-- Claim C3 witness: the spec's scenario device with preview modes
[(1920,1080),(640,480)] and 0 still modes — opening selects (640,480). -/
theorem C3_open_defaults_witness :
    (open_camera init_state [demoCam] none true true).1 = true ∧
    (open_camera init_state [demoCam] none true true).2.img_width = 640 ∧
    (open_camera init_state [demoCam] none true true).2.img_height = 480 ∧
    (open_camera init_state [demoCam] none true true).2.res = 1 ∧
    (open_camera init_state [demoCam] none true true).2.snap_res = 0 := by
  have h := C3_open_defaults init_state demoCam [] (by decide) (by decide)
    (by decide)
    (by
      intro i j hij hj
      have hj1 : j = 1 := by
        simp [demoCam, demoModel] at hj
        omega
      have hi0 : i = 0 := by omega
      rw [hj1, hi0]
      decide)
  exact ⟨h.1, h.2.2.1, h.2.2.2.1, h.2.1, h.2.2.2.2.2.1⟩

/-- Successful set_resolution: with a handle, an in-range index and a device
that restarts, the call returns true and the post-state records the indexed
mode with a freshly allocated PixelBuffer; the loop-run flag is restored to
its prior value. -/
theorem set_resolution_ok (s : CameraState) (m : DeviceModel) (i : Nat)
    (hopen : s.hcam = true) (hcur : s.cur = some m) (hi : i < m.preview) :
    set_resolution s (i : Int) true =
      (true, { s with
               res := i, img_width := (resAt m i).width,
               img_height := (resAt m i).height,
               pData := some (bufBytes (resAt m i)) }) := by
  have hcond : ¬ (((i : Nat) : Int) < 0 ∨ (m.preview : Int) ≤ ((i : Nat) : Int)) := by
    omega
  simp [set_resolution, hopen, hcur, hcond, hi]

/-- Claim C6: switching the streaming resolution from A to B and back to A
leaves the PixelBuffer sized exactly for A's declared mode (stride-padded
row width times height) — the same size after the round trip as after the
first switch to A, with no residual sizing from B. -/
theorem C6_roundtrip (s : CameraState) (m : DeviceModel) (A B : Nat)
    (hopen : s.hcam = true) (hcur : s.cur = some m)
    (hA : A < m.preview) (hB : B < m.preview) :
    (set_resolution s (A : Int) true).2.pData
        = some (bufBytes (resAt m A)) ∧
    (set_resolution (set_resolution (set_resolution s (A : Int) true).2
        (B : Int) true).2 (A : Int) true).2.pData
        = some (bufBytes (resAt m A)) ∧
    (set_resolution (set_resolution (set_resolution s (A : Int) true).2
        (B : Int) true).2 (A : Int) true).2.pData
        = (set_resolution s (A : Int) true).2.pData := by
  have h1 := set_resolution_ok s m A hopen hcur hA
  have e1h : (set_resolution s (A : Int) true).2.hcam = true := by
    rw [h1]; exact hopen
  have e1c : (set_resolution s (A : Int) true).2.cur = some m := by
    rw [h1]; exact hcur
  have h2 := set_resolution_ok _ m B e1h e1c hB
  have e2h : (set_resolution (set_resolution s (A : Int) true).2
      (B : Int) true).2.hcam = true := by
    rw [h2]; exact e1h
  have e2c : (set_resolution (set_resolution s (A : Int) true).2
      (B : Int) true).2.cur = some m := by
    rw [h2]; exact e1c
  have h3 := set_resolution_ok _ m A e2h e2c hA
  refine ⟨?_, ?_, ?_⟩
  · rw [h1]
  · rw [h3]
  · rw [h3, h1]

/-- Claim C6 witness: on the opened scenario device, the sequence
set_resolution 0; 1; 0 leaves the PixelBuffer sized for mode 0. -/
theorem C6_roundtrip_witness :
    (set_resolution (set_resolution (set_resolution
        (open_camera init_state [demoCam] none true true).2
        ((0 : Nat) : Int) true).2 ((1 : Nat) : Int) true).2
        ((0 : Nat) : Int) true).2.pData
      = some (bufBytes (resAt demoModel 0)) :=
  (C6_roundtrip (open_camera init_state [demoCam] none true true).2 demoModel
    0 1 rfl rfl (by decide) (by decide)).2.1

end ToupSdk
